import Mathlib

/-!
# Verification of the OhmGuard mobile client's alert-synchronization core

Shallow embedding of the alert store (`src/frontend/src/store/alertStore.ts`)
and the socket service (`src/services/socket.ts`) of the OhmGuard mobile
client, together with proofs about the behaviour of its operations.

Asynchronous REST calls are embedded by passing the backend outcome
(`Except ApiFailure α`) as an explicit argument: each store action becomes a
pure function from the pre-state and the backend outcome to the post-state
(and, where the source returns a value, that value as well).
-/

/-- `EventType` from `types.ts`. -/
inductive EventType
  | FALL
  | PRE_FALL
  | PRESENCE
  | INACTIVITY
  | UNKNOWN
deriving DecidableEq, Repr

/-- `EventStatus` from `types.ts`. -/
inductive EventStatus
  | NEW
  | ACK
  | RESOLVED
  | FALSE_ALARM
deriving DecidableEq, Repr

/-- `SeverityType` from `types.ts`. -/
inductive SeverityType
  | LOW
  | MED
  | HIGH
deriving DecidableEq, Repr

/-- The structured `location` object of an `Alert` (`types.ts`). -/
structure AlertLocation where
  client_name : Option String
  building_name : Option String
  floor_name : Option String
  room_number : Option String
  zone_name : Option String
deriving DecidableEq, Repr

/-- The `Alert` entity from `types.ts`.  TS `number` fields (`confidence`,
`target_count`, `active_regions` entries) are embedded as `Int`: the store
logic only copies them, never computes with them.  Nullable TS fields are
`Option`s. -/
structure Alert where
  id : String
  sensor_id : Option String
  device_id : Option String
  type : EventType
  confidence : Int
  severity : SeverityType
  status : EventStatus
  timestamp : String
  tenant_id : Option String
  site_id : Option String
  zone_id : Option String
  presence_status : Option String
  presence_detected : Option Bool
  active_regions : Option (List Int)
  target_count : Option Int
  occurred_at : Option String
  assigned_to : Option String
  notes : Option String
  location_path : Option String
  location : Option AlertLocation
  radar_name : Option String
  serial_product : Option String
deriving DecidableEq, Repr

/-- `Partial<Alert>`: each field may be absent from the patch object (outer
`Option`); when present it carries a value of the field's type (which is
itself an `Option` for nullable fields). -/
structure AlertPatch where
  id : Option String
  sensor_id : Option (Option String)
  device_id : Option (Option String)
  type : Option EventType
  confidence : Option Int
  severity : Option SeverityType
  status : Option EventStatus
  timestamp : Option String
  tenant_id : Option (Option String)
  site_id : Option (Option String)
  zone_id : Option (Option String)
  presence_status : Option (Option String)
  presence_detected : Option (Option Bool)
  active_regions : Option (Option (List Int))
  target_count : Option (Option Int)
  occurred_at : Option (Option String)
  assigned_to : Option (Option String)
  notes : Option (Option String)
  location_path : Option (Option String)
  location : Option (Option AlertLocation)
  radar_name : Option (Option String)
  serial_product : Option (Option String)
deriving DecidableEq, Repr

/-- The patch object `{}` with no fields present. -/
def emptyPatch : AlertPatch :=
  { id := none, sensor_id := none, device_id := none, type := none,
    confidence := none, severity := none, status := none, timestamp := none,
    tenant_id := none, site_id := none, zone_id := none,
    presence_status := none, presence_detected := none, active_regions := none,
    target_count := none, occurred_at := none, assigned_to := none,
    notes := none, location_path := none, location := none, radar_name := none,
    serial_product := none }

/-- The JS object spread `{ ...a, ...update }` on an `Alert` and a
`Partial<Alert>`: every field present in the patch overrides the base,
absent fields keep the base's value. -/
def mergeAlert (a : Alert) (p : AlertPatch) : Alert :=
  { id := p.id.getD a.id,
    sensor_id := p.sensor_id.getD a.sensor_id,
    device_id := p.device_id.getD a.device_id,
    type := p.type.getD a.type,
    confidence := p.confidence.getD a.confidence,
    severity := p.severity.getD a.severity,
    status := p.status.getD a.status,
    timestamp := p.timestamp.getD a.timestamp,
    tenant_id := p.tenant_id.getD a.tenant_id,
    site_id := p.site_id.getD a.site_id,
    zone_id := p.zone_id.getD a.zone_id,
    presence_status := p.presence_status.getD a.presence_status,
    presence_detected := p.presence_detected.getD a.presence_detected,
    active_regions := p.active_regions.getD a.active_regions,
    target_count := p.target_count.getD a.target_count,
    occurred_at := p.occurred_at.getD a.occurred_at,
    assigned_to := p.assigned_to.getD a.assigned_to,
    notes := p.notes.getD a.notes,
    location_path := p.location_path.getD a.location_path,
    location := p.location.getD a.location,
    radar_name := p.radar_name.getD a.radar_name,
    serial_product := p.serial_product.getD a.serial_product }

/-- The status filter: `EventStatus | 'ALL'` from the store interface. -/
inductive StatusFilter
  | ALL
  | only (s : EventStatus)
deriving DecidableEq, Repr

/-- The state slice of `useAlertStore` (`alertStore.ts`). -/
structure AlertState where
  alerts : List Alert
  selectedAlert : Option Alert
  isLoading : Bool
  isRefreshing : Bool
  error : Option String
  statusFilter : StatusFilter
deriving DecidableEq, Repr

/-- The initial store state declared in `create<AlertState>`. -/
def initialAlertState : AlertState :=
  { alerts := [], selectedAlert := none, isLoading := false,
    isRefreshing := false, error := none, statusFilter := StatusFilter.ALL }

/-- A failed REST call as the store observes it: the
`error.response?.data?.detail` chain, `none` when absent. -/
structure ApiFailure where
  detail : Option String
deriving DecidableEq, Repr

/-- JS `x || fallback` on the optional detail string: the fallback is used
when the detail is absent or is the (falsy) empty string. -/
def jsOr (x : Option String) (fallback : String) : String :=
  match x with
  | some s => if s = "" then fallback else s
  | none => fallback

/-- The filter predicate `(a) => a.type === 'FALL' || a.type === 'PRE_FALL'`
used by `fetchAlerts` and `refreshAlerts`. -/
def isFallAlert (a : Alert) : Bool :=
  decide (a.type = EventType.FALL) || decide (a.type = EventType.PRE_FALL)

/-- `fetchAlerts` from `alertStore.ts`: sets `isLoading`/clears `error`,
then on success stores the server array filtered to FALL/PRE_FALL, and on
failure records the extracted message with fallback `'Erreur de chargement'`. -/
def fetchAlerts (s : AlertState) (result : Except ApiFailure (List Alert)) :
    AlertState :=
  let s1 := { s with isLoading := true, error := none }
  match result with
  | Except.ok serverAlerts =>
      let fallAlerts := serverAlerts.filter isFallAlert
      { s1 with alerts := fallAlerts, isLoading := false }
  | Except.error e =>
      { s1 with error := some (jsOr e.detail "Erreur de chargement"),
                isLoading := false }

/-- `refreshAlerts` from `alertStore.ts`: like `fetchAlerts` but drives
`isRefreshing` instead of `isLoading`, does not clear `error` up front, and
its catch branch only resets `isRefreshing`. -/
def refreshAlerts (s : AlertState) (result : Except ApiFailure (List Alert)) :
    AlertState :=
  let s1 := { s with isRefreshing := true }
  match result with
  | Except.ok serverAlerts =>
      let fallAlerts := serverAlerts.filter isFallAlert
      { s1 with alerts := fallAlerts, isRefreshing := false }
  | Except.error _ =>
      { s1 with isRefreshing := false }

/-- `fetchAlertDetail` from `alertStore.ts`. -/
def fetchAlertDetail (s : AlertState) (result : Except ApiFailure Alert) :
    AlertState :=
  let s1 := { s with isLoading := true, error := none }
  match result with
  | Except.ok alert =>
      { s1 with selectedAlert := some alert, isLoading := false }
  | Except.error e =>
      { s1 with error := some (jsOr e.detail "Erreur de chargement"),
                isLoading := false }

/-- `acknowledgeAlert` from `alertStore.ts`: on success replaces every list
entry whose id matches with the server-returned alert, stores that alert in
the selected slot, and returns `true`; on failure records the message with
fallback "Erreur d'acquittement" and returns `false`.  The returned pair is
(the promised boolean, the post-state). -/
def acknowledgeAlert (s : AlertState) (i : String)
    (result : Except ApiFailure Alert) : Bool × AlertState :=
  let s1 := { s with isLoading := true, error := none }
  match result with
  | Except.ok updatedAlert =>
      let updatedAlerts := s.alerts.map fun a =>
        if a.id = i then updatedAlert else a
      (true,
       { s1 with alerts := updatedAlerts,
                 selectedAlert := some updatedAlert,
                 isLoading := false })
  | Except.error e =>
      (false,
       { s1 with error := some (jsOr e.detail "Erreur d'acquittement"),
                 isLoading := false })

/-- `addNewAlert` from `alertStore.ts`: drop anything that is not FALL or
PRE_FALL; drop on an existing id; otherwise prepend. -/
def addNewAlert (s : AlertState) (alert : Alert) : AlertState :=
  if alert.type ≠ EventType.FALL ∧ alert.type ≠ EventType.PRE_FALL then s
  else if s.alerts.any (fun a => a.id == alert.id) then s
  else { s with alerts := alert :: s.alerts }

/-- `updateAlertInList` from `alertStore.ts`: spread-merge the patch onto
every list entry whose id matches, and onto the selected alert when its id
matches. -/
def updateAlertInList (s : AlertState) (i : String) (update : AlertPatch) :
    AlertState :=
  let updatedAlerts := s.alerts.map fun a =>
    if a.id = i then mergeAlert a update else a
  let updatedSelected :=
    match s.selectedAlert with
    | some sel => if sel.id = i then some (mergeAlert sel update) else some sel
    | none => none
  { s with alerts := updatedAlerts, selectedAlert := updatedSelected }

/-- `clearError` from `alertStore.ts`. -/
def clearError (s : AlertState) : AlertState :=
  { s with error := none }

/-!
## Socket service (`src/services/socket.ts`)

The `SocketService` class holds `socket` (the transport handle, `null`
before the first `connect`), `tenantId` and `reconnectAttempts`.  The
observable side effects of its methods — emissions on the transport,
teardown, socket creation — are recorded as an explicit action list. -/

/-- The slice of a `socket.io` client handle that `SocketService` consults:
its `connected` flag. -/
structure SocketHandle where
  connected : Bool
deriving DecidableEq, Repr

/-- Observable effects of the socket service on the transport. -/
inductive SocketAction
  | emitLeaveTenant (tenantId : String)
  | disconnectSocket
  | createSocket (token : String)
  | emitJoinTenant (tenantId : String)
deriving DecidableEq, Repr

/-- Mutable fields of the `SocketService` singleton. -/
structure SocketServiceState where
  socket : Option SocketHandle
  tenantId : Option String
  reconnectAttempts : Nat
deriving DecidableEq, Repr

/-- `maxReconnectAttempts` from `SocketService`. -/
def maxReconnectAttempts : Nat := 5

/-- The service's state at construction. -/
def initialSocketState : SocketServiceState :=
  { socket := none, tenantId := none, reconnectAttempts := 0 }

namespace SocketService

/-- `disconnect()`: if a socket exists, emit `leave_tenant` (when a tenant
is set), disconnect and drop the handle; in all cases clear `tenantId`. -/
def disconnect (s : SocketServiceState) :
    SocketServiceState × List SocketAction :=
  match s.socket with
  | some _ =>
      let leaveActs :=
        match s.tenantId with
        | some t => [SocketAction.emitLeaveTenant t]
        | none => []
      ({ s with socket := none, tenantId := none },
       leaveActs ++ [SocketAction.disconnectSocket])
  | none => ({ s with tenantId := none }, [])

/-- The early-return guard of `connect`:
`this.socket?.connected && this.tenantId === tenantId`. -/
def connectGuard (s : SocketServiceState) (tenantId : String) : Bool :=
  (match s.socket with
   | some sk => sk.connected
   | none => false) && (s.tenantId == some tenantId)

/-- `connect(tenantId, token)`: no-op when already connected to the same
tenant; otherwise tear the old subscription down, record the tenant and
create a fresh (not yet connected) socket with the given auth token. -/
def connect (s : SocketServiceState) (tenantId token : String) :
    SocketServiceState × List SocketAction :=
  if connectGuard s tenantId then (s, [])
  else
    let (s1, acts) := disconnect s
    ({ s1 with tenantId := some tenantId,
               socket := some { connected := false } },
     acts ++ [SocketAction.createSocket token])

/-- The `'connect'` transport event as handled by `setupEventListeners`:
the library marks the socket connected, the handler resets
`reconnectAttempts` and emits `join_tenant` for the current tenant. -/
def onConnect (s : SocketServiceState) :
    SocketServiceState × List SocketAction :=
  match s.socket with
  | some sk =>
      ({ s with socket := some { sk with connected := true },
                reconnectAttempts := 0 },
       match s.tenantId with
       | some t => [SocketAction.emitJoinTenant t]
       | none => [])
  | none => (s, [])

end SocketService

/-!
## Concrete values used by witnesses and counterexamples -/

/-- An alert with the given id, type and status and every nullable field
null; used to build concrete store states. -/
def mkAlert (i : String) (ty : EventType) (st : EventStatus) : Alert :=
  { id := i, sensor_id := none, device_id := none, type := ty,
    confidence := 0, severity := SeverityType.LOW, status := st,
    timestamp := "2025-01-01T00:00:00Z", tenant_id := none, site_id := none,
    zone_id := none, presence_status := none, presence_detected := none,
    active_regions := none, target_count := none, occurred_at := none,
    assigned_to := none, notes := none, location_path := none,
    location := none, radar_name := none, serial_product := none }

/-- A FALL alert with id `a1`, status NEW. -/
def alertF1 : Alert := mkAlert "a1" EventType.FALL EventStatus.NEW

/-- The same alert as `alertF1` redelivered with status ACK: same id. -/
def alertF1Ack : Alert := mkAlert "a1" EventType.FALL EventStatus.ACK

/-- A PRE_FALL alert with the distinct id `a2`. -/
def alertF2 : Alert := mkAlert "a2" EventType.PRE_FALL EventStatus.NEW

/-- A PRESENCE alert: out of scope for this client. -/
def presAlert : Alert := mkAlert "p1" EventType.PRESENCE EventStatus.NEW

/-- Store state holding just `alertF1`. -/
def demoState1 : AlertState := { initialAlertState with alerts := [alertF1] }

/-- Store state holding `alertF1` with `alertF2` selected. -/
def demoState2 : AlertState :=
  { initialAlertState with alerts := [alertF1],
                           selectedAlert := some alertF2 }

/-- Store state holding `alertF1` with `alertF1` itself selected. -/
def demoAckState : AlertState :=
  { initialAlertState with alerts := [alertF1],
                           selectedAlert := some alertF1 }

/-- A FALL alert with id `x`. -/
def aX : Alert := mkAlert "x" EventType.FALL EventStatus.NEW

/-- An alert sharing `aX`'s id but with a different `notes` value. -/
def bX : Alert := { aX with notes := some "n" }

/-- An (unsound) store state where the selected alert disagrees with the
collection entry of the same id. -/
def demoState5 : AlertState :=
  { initialAlertState with alerts := [aX], selectedAlert := some bX }

/-- A consistent store state: `aX` in the collection and selected. -/
def demoState5w : AlertState :=
  { initialAlertState with alerts := [aX], selectedAlert := some aX }

/-- A patch object carrying only an `id` field. -/
def idPatch : AlertPatch := { emptyPatch with id := some "b1" }

/-- A patch object carrying only `status: ACK`. -/
def statusPatch : AlertPatch :=
  { emptyPatch with status := some EventStatus.ACK }

/-- A socket-service state live on tenant `tenant-1`. -/
def liveSocketState : SocketServiceState :=
  { socket := some { connected := true }, tenantId := some "tenant-1",
    reconnectAttempts := 0 }

/-!
## Helper lemmas -/

/-- Mapping `if a.id = i then f a else a` over a list none of whose
entries has id `i` is the identity. -/
theorem map_update_of_no_match {l : List Alert} {i : String}
    (f : Alert → Alert) (h : ∀ a ∈ l, a.id ≠ i) :
    (l.map fun a => if a.id = i then f a else a) = l := by
  have := List.map_congr_left (l := l)
    (f := fun a => if a.id = i then f a else a) (g := id)
    (fun a ha => if_neg (h a ha))
  simpa using this

/-- Spread-merging a patch that does not carry an `id` field leaves the
alert's id unchanged. -/
theorem mergeAlert_id_of_none (a : Alert) (p : AlertPatch)
    (hp : p.id = none) : (mergeAlert a p).id = a.id := by
  simp [mergeAlert, hp]

/-- One `addNewAlert` call preserves distinctness of the collection's ids. -/
theorem addNewAlert_preserves_nodup (s : AlertState) (a : Alert)
    (h : (s.alerts.map Alert.id).Nodup) :
    ((addNewAlert s a).alerts.map Alert.id).Nodup := by
  unfold addNewAlert
  split
  · exact h
  · split
    · exact h
    · rename_i hnotfound
      simp only [List.map_cons]
      refine List.nodup_cons.mpr ⟨?_, h⟩
      intro hmem
      obtain ⟨b, hb, hbid⟩ := List.mem_map.mp hmem
      exact hnotfound (List.any_eq_true.mpr ⟨b, hb, by simp [hbid]⟩)

/-- Normal form of a successful `acknowledgeAlert` call. -/
theorem acknowledgeAlert_ok_eq (s : AlertState) (i : String) (sv : Alert) :
    acknowledgeAlert s i (Except.ok sv) =
      (true,
       { s with alerts := s.alerts.map fun a => if a.id = i then sv else a,
                selectedAlert := some sv, isLoading := false,
                error := none }) := rfl

/-!
## Claim theorems -/

/-- C1: inserting an alert whose id already exists in the collection is a
no-op leaving the store unchanged, and for every sequence of `addNewAlert`
calls starting from a collection with pairwise-distinct ids, the resulting
collection still has at most one entry per id. -/
theorem addNewAlert_no_duplicate (s : AlertState) :
    (∀ a : Alert, (∃ b ∈ s.alerts, b.id = a.id) → addNewAlert s a = s) ∧
    ((s.alerts.map Alert.id).Nodup →
      ∀ pushes : List Alert,
        ((pushes.foldl addNewAlert s).alerts.map Alert.id).Nodup) := by
  constructor
  · rintro a ⟨b, hb, hbid⟩
    unfold addNewAlert
    split
    · rfl
    · rw [if_pos (List.any_eq_true.mpr ⟨b, hb, by simp [hbid]⟩)]
  · intro h pushes
    induction pushes generalizing s with
    | nil => exact h
    | cons p ps ih => exact ih _ (addNewAlert_preserves_nodup s p h)

/-- Witness for C1: redelivering id `a1` is a no-op, and a delivery
sequence with a repeat keeps the ids of the collection distinct. -/
theorem addNewAlert_no_duplicate_witness :
    addNewAlert demoState1 alertF1Ack = demoState1 ∧
    ((([alertF1Ack, alertF2].foldl addNewAlert demoState1).alerts.map
        Alert.id).Nodup) :=
  ⟨(addNewAlert_no_duplicate demoState1).1 alertF1Ack
     ⟨alertF1, by decide, by decide⟩,
   (addNewAlert_no_duplicate demoState1).2 (by decide) [alertF1Ack, alertF2]⟩

/-- C4: a pushed alert that is neither FALL nor PRE_FALL is silently
dropped (state unchanged); a FALL or PRE_FALL alert with a fresh id is
prepended to the front of the collection. -/
theorem addNewAlert_type_gate (s : AlertState) (a : Alert) :
    (a.type ≠ EventType.FALL → a.type ≠ EventType.PRE_FALL →
      addNewAlert s a = s) ∧
    ((a.type = EventType.FALL ∨ a.type = EventType.PRE_FALL) →
      (∀ b ∈ s.alerts, b.id ≠ a.id) →
      addNewAlert s a = { s with alerts := a :: s.alerts }) := by
  constructor
  · intro h1 h2
    unfold addNewAlert
    rw [if_pos ⟨h1, h2⟩]
  · intro hty hfresh
    have hc1 : ¬(a.type ≠ EventType.FALL ∧ a.type ≠ EventType.PRE_FALL) := by
      rcases hty with h | h <;> simp [h]
    have hc2 : ¬((s.alerts.any fun b => b.id == a.id) = true) := by
      intro hany
      obtain ⟨b, hb, hbid⟩ := List.any_eq_true.mp hany
      exact hfresh b hb (by simpa using hbid)
    unfold addNewAlert
    rw [if_neg hc1, if_neg hc2]

/-- Witness for C4: a PRESENCE push leaves the store unchanged; a PRE_FALL
push with a fresh id is prepended. -/
theorem addNewAlert_type_gate_witness :
    addNewAlert demoState1 presAlert = demoState1 ∧
    addNewAlert demoState1 alertF2 =
      { demoState1 with alerts := alertF2 :: demoState1.alerts } :=
  ⟨(addNewAlert_type_gate demoState1 presAlert).1 (by decide) (by decide),
   (addNewAlert_type_gate demoState1 alertF2).2 (Or.inr rfl) (by decide)⟩

/-- C6: a partial update whose target id matches neither any collection
entry nor the selected alert leaves the whole store state unchanged (and,
being a total function, raises no error). -/
theorem updateAlertInList_missing_noop (s : AlertState) (i : String)
    (p : AlertPatch)
    (hn : ∀ a ∈ s.alerts, a.id ≠ i)
    (hs : ∀ sel, s.selectedAlert = some sel → sel.id ≠ i) :
    updateAlertInList s i p = s := by
  unfold updateAlertInList
  have halerts :
      (s.alerts.map fun a => if a.id = i then mergeAlert a p else a) =
        s.alerts :=
    map_update_of_no_match _ hn
  have hsel :
      (match s.selectedAlert with
       | some sel =>
           if sel.id = i then some (mergeAlert sel p) else some sel
       | none => none) = s.selectedAlert := by
    cases hsv : s.selectedAlert with
    | none => rfl
    | some sel => simp [hs sel hsv]
  simp only [halerts, hsel]

/-- Witness for C6: patching the absent id `zzz` in a store holding id
`a1` with id `a2` selected changes nothing. -/
theorem updateAlertInList_missing_noop_witness :
    updateAlertInList demoState2 "zzz" statusPatch = demoState2 :=
  updateAlertInList_missing_noop demoState2 "zzz" statusPatch (by decide)
    (fun sel h => by
      simp only [demoState2, initialAlertState, Option.some.injEq] at h
      subst h
      decide)

/-- C7: when the backend rejects an acknowledge, the collection and the
selected slot are untouched, the call returns `false`, and the failure is
recorded as an error message (fallback "Erreur d'acquittement"). -/
theorem acknowledgeAlert_failure_preserves_state (s : AlertState)
    (i : String) (e : ApiFailure) :
    (acknowledgeAlert s i (Except.error e)).1 = false ∧
    (acknowledgeAlert s i (Except.error e)).2.alerts = s.alerts ∧
    (acknowledgeAlert s i (Except.error e)).2.selectedAlert =
      s.selectedAlert ∧
    (acknowledgeAlert s i (Except.error e)).2.error =
      some (jsOr e.detail "Erreur d'acquittement") :=
  ⟨rfl, rfl, rfl, rfl⟩

/-- C10: a failed pull-to-refresh is swallowed: the post-state differs from
the pre-state only in `isRefreshing` being reset to `false`; in particular
the collection, the selected alert and the error field are unchanged. -/
theorem refreshAlerts_failure_swallowed (s : AlertState) (e : ApiFailure) :
    refreshAlerts s (Except.error e) = { s with isRefreshing := false } ∧
    (refreshAlerts s (Except.error e)).alerts = s.alerts ∧
    (refreshAlerts s (Except.error e)).selectedAlert = s.selectedAlert ∧
    (refreshAlerts s (Except.error e)).error = s.error :=
  ⟨rfl, rfl, rfl, rfl⟩

/-- C2: from a collection holding a NEW alert with the target id, a
successful acknowledge whose backend response carries that id with status
ACK makes every collection entry of that id equal to the server-returned
alert (in particular status ACK), puts the server-returned alert in the
selected slot whenever the previously selected alert had that id, reports
success, and a second acknowledge under the same backend response
reproduces the same result exactly. -/
theorem acknowledgeAlert_round_trip (s : AlertState) (i : String)
    (sv : Alert) (hid : sv.id = i) (hack : sv.status = EventStatus.ACK)
    (hmem : ∃ a ∈ s.alerts, a.id = i ∧ a.status = EventStatus.NEW) :
    (∀ a ∈ (acknowledgeAlert s i (Except.ok sv)).2.alerts,
       a.id = i → a = sv) ∧
    (∃ a ∈ (acknowledgeAlert s i (Except.ok sv)).2.alerts,
       a.id = i ∧ a.status = EventStatus.ACK) ∧
    (∀ sel, s.selectedAlert = some sel → sel.id = i →
       (acknowledgeAlert s i (Except.ok sv)).2.selectedAlert = some sv) ∧
    (acknowledgeAlert s i (Except.ok sv)).1 = true ∧
    acknowledgeAlert (acknowledgeAlert s i (Except.ok sv)).2 i
        (Except.ok sv) =
      acknowledgeAlert s i (Except.ok sv) := by
  refine ⟨?_, ?_, ?_, rfl, ?_⟩
  · intro a' ha' hid'
    rw [acknowledgeAlert_ok_eq] at ha'
    obtain ⟨a, _, hfa⟩ := List.mem_map.mp ha'
    by_cases hai : a.id = i
    · rw [if_pos hai] at hfa
      exact hfa.symm
    · rw [if_neg hai] at hfa
      exact absurd (hfa ▸ hid') hai
  · obtain ⟨a, ha, hai, _⟩ := hmem
    refine ⟨sv, ?_, hid, hack⟩
    rw [acknowledgeAlert_ok_eq]
    exact List.mem_map.mpr ⟨a, ha, if_pos hai⟩
  · intro sel _ _
    rw [acknowledgeAlert_ok_eq]
  · have hff : ∀ a ∈ s.alerts.map fun a => if a.id = i then sv else a,
        (if a.id = i then sv else a) = a := by
      intro a' ha'
      obtain ⟨a, _, hfa⟩ := List.mem_map.mp ha'
      by_cases hai : a.id = i
      · rw [if_pos hai] at hfa
        rw [← hfa, if_pos (hfa ▸ hid)]
      · rw [if_neg hai] at hfa
        subst hfa
        rw [if_neg hai]
    simp only [acknowledgeAlert_ok_eq]
    simp [List.map_congr_left hff, List.map_id]

/-- Witness for C2: concrete acknowledge of id `a1` from a NEW collection
entry with the backend returning the ACK version of the alert. -/
theorem acknowledgeAlert_round_trip_witness :
    (∃ a ∈ (acknowledgeAlert demoAckState "a1"
              (Except.ok alertF1Ack)).2.alerts,
       a.id = "a1" ∧ a.status = EventStatus.ACK) ∧
    acknowledgeAlert
        (acknowledgeAlert demoAckState "a1" (Except.ok alertF1Ack)).2 "a1"
        (Except.ok alertF1Ack) =
      acknowledgeAlert demoAckState "a1" (Except.ok alertF1Ack) := by
  have h := acknowledgeAlert_round_trip demoAckState "a1" alertF1Ack rfl rfl
    ⟨alertF1, by decide, rfl, rfl⟩
  exact ⟨h.2.1, h.2.2.2.2⟩

/-- C3 counterexample: the claim says a successful `fetchAlerts` leaves the
collection equal to exactly the array the server returned, for every such
array; but when the server returns a PRESENCE alert the client drops it. -/
theorem fetchAlerts_not_wholesale :
    (fetchAlerts initialAlertState (Except.ok [presAlert])).alerts ≠
      [presAlert] := by decide

/-- C3 (amended): a successful `fetchAlerts` replaces the collection with
the server-returned array filtered to FALL/PRE_FALL entries, preserving
the server order (the result is a sublist of the returned array — nothing
is added or reordered); when every returned alert is FALL or PRE_FALL the
collection equals exactly the returned array. -/
theorem fetchAlerts_replaces_with_filtered (s : AlertState)
    (serverAlerts : List Alert) :
    ((fetchAlerts s (Except.ok serverAlerts)).alerts =
       serverAlerts.filter isFallAlert) ∧
    ((fetchAlerts s (Except.ok serverAlerts)).alerts.Sublist serverAlerts) ∧
    ((∀ a ∈ serverAlerts,
        a.type = EventType.FALL ∨ a.type = EventType.PRE_FALL) →
      (fetchAlerts s (Except.ok serverAlerts)).alerts = serverAlerts) := by
  refine ⟨rfl, List.filter_sublist serverAlerts, ?_⟩
  intro h
  show serverAlerts.filter isFallAlert = serverAlerts
  refine List.filter_eq_self.mpr fun a ha => ?_
  rcases h a ha with hty | hty <;> simp [isFallAlert, hty]

/-- Witness for C3 (amended): fetching a server array consisting of the
single FALL alert yields exactly that array. -/
theorem fetchAlerts_replaces_with_filtered_witness :
    (fetchAlerts initialAlertState (Except.ok [alertF1])).alerts =
      [alertF1] :=
  (fetchAlerts_replaces_with_filtered initialAlertState [alertF1]).2.2
    (by decide)

/-- C5 counterexample: the claim concludes that after any update an entry
and the selected alert with the same id have the same field values, for
every starting state; but when they already disagreed before the update
(here: same id `x`, different `notes`) they still disagree after it. -/
theorem updateAlertInList_consistency_cex :
    (updateAlertInList demoState5 "x" emptyPatch).alerts = [aX] ∧
    (updateAlertInList demoState5 "x" emptyPatch).selectedAlert = some bX ∧
    aX.id = bX.id ∧ aX ≠ bX := by decide

/-- C5 (amended): for a patch that does not carry an `id` field,
`updateAlertInList` merges the patch onto every collection entry whose id
matches and, independently, onto the selected alert when its id matches;
and if before the update every collection entry sharing the selected
alert's id agreed with it, then after the update every entry sharing the
new selected alert's id agrees with it. -/
theorem updateAlertInList_merge_and_consistency (s : AlertState)
    (i : String) (p : AlertPatch) (hp : p.id = none) :
    (∀ a ∈ s.alerts, a.id = i →
       mergeAlert a p ∈ (updateAlertInList s i p).alerts) ∧
    (∀ sel, s.selectedAlert = some sel → sel.id = i →
       (updateAlertInList s i p).selectedAlert =
         some (mergeAlert sel p)) ∧
    (∀ sel, s.selectedAlert = some sel →
       (∀ a ∈ s.alerts, a.id = sel.id → a = sel) →
       ∀ sel', (updateAlertInList s i p).selectedAlert = some sel' →
         ∀ a ∈ (updateAlertInList s i p).alerts, a.id = sel'.id →
           a = sel') := by
  refine ⟨?_, ?_, ?_⟩
  · intro a ha hai
    exact List.mem_map.mpr ⟨a, ha, if_pos hai⟩
  · intro sel hsel hsi
    simp [updateAlertInList, hsel, hsi]
  · intro sel hsel hcons sel' hsel' a' ha' hid'
    simp only [updateAlertInList, hsel] at hsel' ha'
    obtain ⟨a, ha, hfa⟩ := List.mem_map.mp ha'
    by_cases hsi : sel.id = i
    · rw [if_pos hsi, Option.some.injEq] at hsel'
      subst hsel'
      rw [mergeAlert_id_of_none sel p hp] at hid'
      by_cases hai : a.id = i
      · rw [if_pos hai] at hfa
        have haeq : a = sel := hcons a ha (hsi ▸ hai)
        rw [← hfa, haeq]
      · rw [if_neg hai] at hfa
        subst hfa
        exact absurd (hid'.trans hsi) hai
    · rw [if_neg hsi, Option.some.injEq] at hsel'
      subst hsel'
      by_cases hai : a.id = i
      · rw [if_pos hai] at hfa
        rw [← hfa, mergeAlert_id_of_none a p hp] at hid'
        exact absurd (hid' ▸ hsi) (by simp [hai])
      · rw [if_neg hai] at hfa
        subst hfa
        exact hcons _ ha hid'

/-- Witness for C5 (amended): patching `status` of id `x` in a consistent
store puts the merged alert in the collection. -/
theorem updateAlertInList_merge_and_consistency_witness :
    mergeAlert aX statusPatch ∈
      (updateAlertInList demoState5w "x" statusPatch).alerts :=
  (updateAlertInList_merge_and_consistency demoState5w "x" statusPatch
    rfl).1 aX (by decide) rfl

/-- C9 counterexample: the claim says no patch ever changes an entry's id;
but `updateAlertInList` spread-merges the whole patch object, so a patch
carrying an `id` field rewrites the target entry's id (here `a1` to
`b1`). -/
theorem updateAlertInList_id_changed :
    (updateAlertInList demoState1 "a1" idPatch).alerts.map Alert.id ≠
      demoState1.alerts.map Alert.id ∧
    (updateAlertInList demoState1 "a1" idPatch).alerts.map Alert.id =
      ["b1"] := by decide

/-- C9 (amended): for every patch that does not carry an `id` field,
`updateAlertInList` preserves the ids of all collection entries (as a
list, position by position) and the id of the selected alert. -/
theorem updateAlertInList_id_immutable (s : AlertState) (i : String)
    (p : AlertPatch) (hp : p.id = none) :
    ((updateAlertInList s i p).alerts.map Alert.id =
       s.alerts.map Alert.id) ∧
    (∀ sel', (updateAlertInList s i p).selectedAlert = some sel' →
       ∃ sel, s.selectedAlert = some sel ∧ sel'.id = sel.id) := by
  constructor
  · show ((s.alerts.map fun a => if a.id = i then mergeAlert a p else a).map
        Alert.id) = s.alerts.map Alert.id
    rw [List.map_map]
    refine List.map_congr_left fun a _ => ?_
    by_cases hai : a.id = i
    · simp [hai, mergeAlert_id_of_none a p hp]
    · simp [hai]
  · intro sel' hsel'
    cases hsv : s.selectedAlert with
    | none => simp [updateAlertInList, hsv] at hsel'
    | some sel =>
        simp only [updateAlertInList, hsv] at hsel'
        by_cases hsi : sel.id = i
        · rw [if_pos hsi, Option.some.injEq] at hsel'
          exact ⟨sel, rfl, hsel' ▸ mergeAlert_id_of_none sel p hp⟩
        · rw [if_neg hsi, Option.some.injEq] at hsel'
          exact ⟨sel, rfl, hsel' ▸ rfl⟩

/-- Witness for C9 (amended): an id-free `status` patch leaves the ids of
a concrete collection unchanged. -/
theorem updateAlertInList_id_immutable_witness :
    (updateAlertInList demoState1 "a1" statusPatch).alerts.map Alert.id =
      demoState1.alerts.map Alert.id :=
  (updateAlertInList_id_immutable demoState1 "a1" statusPatch rfl).1

/-- C8: `connect` is idempotent for a live same-tenant subscription — the
state is unchanged and no action (teardown, socket creation, join
emission) is performed; moreover the two-calls-in-a-row scenario from the
initial state creates exactly one socket, emits exactly one join, and the
second call emits nothing and changes nothing. -/
theorem connect_idempotent (t tok : String) (s : SocketServiceState)
    (sk : SocketHandle) (hsk : s.socket = some sk)
    (hconn : sk.connected = true) (ht : s.tenantId = some t) :
    SocketService.connect s t tok = (s, []) ∧
    (SocketService.connect initialSocketState t tok).2 =
      [SocketAction.createSocket tok] ∧
    (SocketService.onConnect
       (SocketService.connect initialSocketState t tok).1).2 =
      [SocketAction.emitJoinTenant t] ∧
    SocketService.connect
        (SocketService.onConnect
          (SocketService.connect initialSocketState t tok).1).1 t tok =
      ((SocketService.onConnect
          (SocketService.connect initialSocketState t tok).1).1, []) := by
  have hg : SocketService.connectGuard s t = true := by
    unfold SocketService.connectGuard
    rw [hsk, ht]
    simp [hconn]
  refine ⟨?_, rfl, rfl, ?_⟩
  · unfold SocketService.connect
    rw [if_pos hg]
  · set s2 := (SocketService.onConnect
      (SocketService.connect initialSocketState t tok).1).1 with hs2
    have hg2 : SocketService.connectGuard s2 t = true := by
      simp [hs2, SocketService.connectGuard, SocketService.connect,
        SocketService.onConnect, SocketService.disconnect,
        initialSocketState]
    show SocketService.connect s2 t tok = (s2, [])
    unfold SocketService.connect
    rw [if_pos hg2]

/-- Witness for C8: a service live on `tenant-1` ignores a repeated
`connect` to the same tenant. -/
theorem connect_idempotent_witness :
    SocketService.connect liveSocketState "tenant-1" "tok" =
      (liveSocketState, []) :=
  (connect_idempotent "tenant-1" "tok" liveSocketState
    { connected := true } rfl rfl rfl).1
